import Mathlib

/-!
Verification of the terminotes git-backed synchronization engine.

Shallow embedding of the relevant parts of the repository:
`terminotes/git_sync.py` (GitSync), `terminotes/cli/sync.py` (sync command),
`terminotes/services/notes.py` and `terminotes/cli/log.py` (note mutation
plus local commit).  Functions of the repository that are only called but
not defined under the source tree (the `GitSync` class in the tree is the
Stage-2 version; the sync/commit helpers are referenced by the CLI) are
modelled from the specification and say so in their doc comments.
-/

/-- The five divergence states of spec section 4.3, the closed variant the
sync command dispatches on (`cli/sync.py` compares the strings
"remote_ahead", "diverged", "no_upstream", "up_to_date"; the remaining case
is local_ahead). -/
inductive DivergenceState where
  | up_to_date
  | local_ahead
  | remote_ahead
  | diverged
  | no_upstream
  deriving DecidableEq, Repr

/-- Modelled from the spec: `GitSync.detect_divergence` is absent from
`src/terminotes/git_sync.py` (the class there is the Stage-2 version; only
the caller `cli/sync.py` names the method).  Spec 4.3: if the current
branch has no configured upstream the state is `no_upstream`; otherwise the
counts of local-only (`ahead`) and remote-only (`behind`) commits are
classified into the remaining four states. -/
def detect_divergence (has_upstream : Bool) (ahead behind : Nat) : DivergenceState :=
  if has_upstream = false then .no_upstream
  else if ahead = 0 ∧ behind = 0 then .up_to_date
  else if ahead > 0 ∧ behind = 0 then .local_ahead
  else if ahead = 0 ∧ behind > 0 then .remote_ahead
  else .diverged

/-- C1: for every pair of non-negative ahead/behind counts,
`detect_divergence` returns `up_to_date` iff ahead = 0 and behind = 0,
`local_ahead` iff ahead > 0 and behind = 0, `remote_ahead` iff ahead = 0
and behind > 0, `diverged` iff both are positive, and `no_upstream` iff the
branch has no configured upstream, regardless of the counts. -/
theorem detect_divergence_classification (hu : Bool) (ahead behind : Nat) :
    (detect_divergence hu ahead behind = DivergenceState.no_upstream ↔ hu = false) ∧
    (detect_divergence hu ahead behind = DivergenceState.up_to_date ↔
      hu = true ∧ ahead = 0 ∧ behind = 0) ∧
    (detect_divergence hu ahead behind = DivergenceState.local_ahead ↔
      hu = true ∧ ahead > 0 ∧ behind = 0) ∧
    (detect_divergence hu ahead behind = DivergenceState.remote_ahead ↔
      hu = true ∧ ahead = 0 ∧ behind > 0) ∧
    (detect_divergence hu ahead behind = DivergenceState.diverged ↔
      hu = true ∧ ahead > 0 ∧ behind > 0) := by
  cases hu <;> unfold detect_divergence <;>
    refine ⟨?_, ?_, ?_, ?_, ?_⟩ <;> split_ifs <;> simp_all <;> omega

/-- The user's answer to the sync command's divergence prompt.  The prompt
in `cli/sync.py` is a `click.Choice` over exactly the strings "local-wins",
"remote-wins" and "abort" (default "abort"), so a closed variant is
faithful. -/
inductive ResolutionChoice where
  | local_wins
  | remote_wins
  | abort
  deriving DecidableEq, Repr

/-- One invocation of a `GitSync` method by the sync command, in the order
`cli/sync.py` performs them. -/
inductive GitOp where
  | fetch_prune
  | current_branch
  | detect_div
  | hard_reset (branch : String)
  | force_push_lease (branch : String)
  | push_upstream (branch : String)
  | push (branch : String)
  deriving DecidableEq, Repr

/-- Whether the git invocation behind the operation mutates any ref, local
or remote-tracking included.  Modelled from the spec for the operations
absent from `src/terminotes/git_sync.py`: spec 4.3 says `fetch_prune` is a
"network call that updates remote-tracking refs and removes refs to deleted
remote branches", so it mutates remote-tracking refs; `current_branch` and
`detect_divergence` are read-only queries; the reset and the three pushes
move a local branch or a remote ref. -/
def GitOp.mutatesRefs : GitOp → Bool
  | .fetch_prune => true
  | .current_branch => false
  | .detect_div => false
  | .hard_reset _ => true
  | .force_push_lease _ => true
  | .push_upstream _ => true
  | .push _ => true

/-- Whether the operation is one of the resolution mutations of spec 4.4
(hard reset or a push variant), as opposed to the fetch/query steps. -/
def GitOp.isResolutionMutation : GitOp → Bool
  | .hard_reset _ => true
  | .force_push_lease _ => true
  | .push_upstream _ => true
  | .push _ => true
  | _ => false

/-- Outcome of a CLI command: `ok` is a normal return (the final
`click.echo` text), `err` is a raised `TerminotesCliError` (a
`click.ClickException`, which makes the command exit with a failure
status). -/
inductive CmdOutcome where
  | ok (msg : String)
  | err (msg : String)
  deriving DecidableEq, Repr

/-- The environment a sync invocation observes: the git handle of the
application context (`None` or its `is_valid_repo` answer), the worktree
cleanliness answer, the branch/upstream/ahead/behind facts the fetch-phase
queries would report, whether stdin is a terminal, and the answer the user
would give at the divergence prompt. -/
structure SyncEnv where
  has_git_sync : Bool
  valid_repo : Bool
  worktree_clean : Bool
  has_upstream : Bool
  ahead : Nat
  behind : Nat
  branch : String
  interactive : Bool
  choice : ResolutionChoice
  deriving DecidableEq, Repr

/-- Embedding of `sync` in `src/terminotes/cli/sync.py` together with
`_prompt_divergence_resolution` from the same file.  Returns the command
outcome and the ordered list of `GitSync` operations performed.  Dry-run
echo texts reproduce the source f-strings (\x27 is the single-quote
character of the Python literals); the prompt preface printed to stderr is
elided, as the claims only concern the outcome and the operation trace. -/
def sync (env : SyncEnv) (dry_run : Bool) : CmdOutcome × List GitOp :=
  if env.has_git_sync = false ∨ env.valid_repo = false then
    (.ok "Git repo not initialized or invalid; nothing to sync.", [])
  else if env.worktree_clean = false then
    (.err "Working tree has uncommitted changes. Commit or stash before syncing.", [])
  else
    let pre : List GitOp := [.fetch_prune, .current_branch, .detect_div]
    let branch := env.branch
    let state := detect_divergence env.has_upstream env.ahead env.behind
    if state = .remote_ahead ∨ state = .diverged then
      if env.interactive = false then
        (.err "Cannot prompt in non-interactive session. Re-run in a terminal or resolve manually.",
          pre)
      else
        match env.choice with
        | .abort => (.err "Sync aborted by user.", pre)
        | .remote_wins =>
          if dry_run then
            (.ok ("Dry-run: would run \x27git reset --hard origin/" ++ branch ++ "\x27"), pre)
          else
            (.ok ("Replaced local DB with origin/" ++ branch ++ " version"),
              pre ++ [.hard_reset branch])
        | .local_wins =>
          if dry_run then
            (.ok ("Dry-run: would run \x27git push --force-with-lease origin " ++ branch ++ "\x27"),
              pre)
          else
            (.ok ("Force-pushed local DB to origin/" ++ branch),
              pre ++ [.force_push_lease branch])
    else if state = .no_upstream then
      if dry_run then
        (.ok ("Dry-run: would run \x27git push -u origin " ++ branch ++ "\x27"), pre)
      else
        (.ok ("Pushed and set upstream to origin/" ++ branch), pre ++ [.push_upstream branch])
    else if state = .up_to_date then
      (.ok "Already up to date; nothing to sync.", pre)
    else
      if dry_run then
        (.ok ("Dry-run: would run \x27git push origin " ++ branch ++ "\x27"), pre)
      else
        (.ok ("Pushed updates to origin/" ++ branch), pre ++ [.push branch])

/-- C3: when the git handle is present and valid but the worktree is not
clean, the sync command fails with the dirty-worktree error and performs no
git operation at all: no fetch, no classification, no resolution. -/
theorem sync_dirty_worktree_blocks_before_fetch (env : SyncEnv) (dry : Bool)
    (hg : env.has_git_sync = true) (hv : env.valid_repo = true)
    (hw : env.worktree_clean = false) :
    sync env dry =
      (.err "Working tree has uncommitted changes. Commit or stash before syncing.", []) := by
  unfold sync
  rw [hg, hv, hw]
  simp

/-- C3 witness: a concrete dirty-worktree invocation. -/
theorem sync_dirty_worktree_blocks_before_fetch_witness :
    sync ⟨true, true, false, true, 0, 0, "main", true, .abort⟩ false =
      (.err "Working tree has uncommitted changes. Commit or stash before syncing.", []) :=
  sync_dirty_worktree_blocks_before_fetch _ false rfl rfl rfl

/-- C10: when the git handle is `None` or its repository is reported
invalid, the sync command prints the nothing-to-sync notice and returns
successfully, performing no git operation, instead of raising a
configuration error. -/
theorem sync_invalid_repo_reports_and_succeeds (env : SyncEnv) (dry : Bool)
    (h : env.has_git_sync = false ∨ env.valid_repo = false) :
    sync env dry = (.ok "Git repo not initialized or invalid; nothing to sync.", []) := by
  unfold sync
  rw [if_pos h]

/-- C10 witness: a concrete invocation with an absent git handle. -/
theorem sync_invalid_repo_reports_and_succeeds_witness :
    sync ⟨false, false, true, true, 0, 0, "main", true, .abort⟩ true =
      (.ok "Git repo not initialized or invalid; nothing to sync.", []) :=
  sync_invalid_repo_reports_and_succeeds _ true (Or.inl rfl)

/-- C6: when classification yields `remote_ahead` or `diverged` and stdin
is not a terminal, the sync command fails with the non-interactive error
and the trace stops at the fetch/query phase: no resolution operation is
performed and no resolution is auto-selected, whatever the prompt default
would have been. -/
theorem sync_noninteractive_conflict_fatal (env : SyncEnv) (dry : Bool)
    (hg : env.has_git_sync = true) (hv : env.valid_repo = true)
    (hw : env.worktree_clean = true)
    (hs : detect_divergence env.has_upstream env.ahead env.behind = .remote_ahead ∨
          detect_divergence env.has_upstream env.ahead env.behind = .diverged)
    (hi : env.interactive = false) :
    sync env dry =
      (.err "Cannot prompt in non-interactive session. Re-run in a terminal or resolve manually.",
        [.fetch_prune, .current_branch, .detect_div]) := by
  unfold sync
  rw [hg, hv, hw, hi]
  simp only [Bool.true_eq_false, or_self, if_false, if_pos hs, if_true]

/-- C6 witness: remote strictly ahead, non-interactive session. -/
theorem sync_noninteractive_conflict_fatal_witness :
    sync ⟨true, true, true, true, 0, 1, "main", false, .abort⟩ false =
      (.err "Cannot prompt in non-interactive session. Re-run in a terminal or resolve manually.",
        [.fetch_prune, .current_branch, .detect_div]) :=
  sync_noninteractive_conflict_fatal _ false rfl rfl rfl (Or.inl (by decide)) rfl

/-- C4 counterexample: it is not the case that a dry-run sync performs no
ref-mutating git operation — `cli/sync.py` calls `fetch_prune` before any
dry-run branching, and fetch with prune updates remote-tracking refs
(spec 4.3).  Refuted at a valid, clean, up-to-date repository. -/
theorem sync_dry_run_mutation_counterexample :
    ¬ (∀ env : SyncEnv,
        ((sync env true).2.all (fun op => op.mutatesRefs = false)) = true) := by
  intro h
  have hc := h ⟨true, true, true, true, 0, 0, "main", true, .abort⟩
  revert hc
  decide

/-- C4 amended: a dry-run sync performs no resolution mutation — no hard
reset and no push of any kind ever appears in its operation trace; every
such branch only reports the git invocation that would run.  The fetch
(which updates remote-tracking refs) still runs. -/
theorem sync_dry_run_no_resolution_mutation (env : SyncEnv) :
    ((sync env true).2.all (fun op => op.isResolutionMutation = false)) = true := by
  obtain ⟨hg, hv, wc, hu, a, b, br, int, ch⟩ := env
  unfold sync
  cases ch <;> dsimp only <;> split_ifs <;> simp_all [GitOp.isResolutionMutation]

/-- Observable action of `ensure_local_clone`: reading the origin URL from
the repository configuration (`git config --get remote.origin.url`, a local
metadata read), creating the parent directories, and running `git clone`
(network plus filesystem). -/
inductive CloneAction where
  | config_get
  | mkdir_parents
  | clone
  deriving DecidableEq, Repr

/-- Whether the action performs network I/O. -/
def CloneAction.isNetwork : CloneAction → Bool
  | .clone => true
  | _ => false

/-- Whether the action changes the filesystem. -/
def CloneAction.changesFs : CloneAction → Bool
  | .mkdir_parents => true
  | .clone => true
  | .config_get => false

/-- What `ensure_local_clone` observes of the world: whether the repository
path exists, whether `repo_path/.git` is a directory, the exit code, stdout
and stderr the `git config --get remote.origin.url` invocation would
yield, the exit code and stderr the `git clone` invocation would yield, and
the two strings of the `GitSync` constructor. -/
structure CloneEnv where
  path_exists : Bool
  git_dir_ok : Bool
  config_exit : Nat
  config_out : String
  config_err : String
  clone_exit : Nat
  clone_err : String
  repo_path : String
  remote_url : String
  deriving DecidableEq, Repr

/-- Python `str.strip` with no argument: remove leading and trailing
whitespace.  Defined structurally over the character list so that concrete
instances evaluate inside the kernel. -/
def pyStrip (s : String) : String :=
  String.mk (((s.data.dropWhile Char.isWhitespace).reverse.dropWhile Char.isWhitespace).reverse)

/-- Embedding of `GitSync._run_git` (src/terminotes/git_sync.py): a
non-zero exit code raises `GitSyncError` with the failed command and the
stripped stderr text; otherwise the stdout is returned. -/
def run_git (args_display : String) (exit_code : Nat) (stdout stderr_text : String) :
    Except String String :=
  if exit_code ≠ 0 then
    .error ("git " ++ args_display ++ " failed (exit " ++ toString exit_code ++ "): "
      ++ pyStrip stderr_text)
  else
    .ok stdout

/-- Embedding of `GitSync.ensure_local_clone` together with
`GitSync._verify_origin` (src/terminotes/git_sync.py).  Returns the ordered
list of observable actions performed and either `ok` or the `GitSyncError`
message raised.  `\x27` is the single-quote character of the Python
f-string literals. -/
def ensure_local_clone (env : CloneEnv) : List CloneAction × Except String Unit :=
  if env.path_exists then
    if env.git_dir_ok = false then
      ([], .error ("Existing path \x27" ++ env.repo_path ++ "\x27 is not a git repository."))
    else
      match run_git "config --get remote.origin.url" env.config_exit env.config_out
          env.config_err with
      | .error e => ([.config_get], .error e)
      | .ok current_url =>
        if pyStrip current_url ≠ env.remote_url then
          ([.config_get],
            .error ("Existing repository remote does not match configured URL. Expected \x27"
              ++ env.remote_url ++ "\x27, found \x27" ++ pyStrip current_url ++ "\x27."))
        else
          ([.config_get], .ok ())
  else
    match run_git ("clone " ++ env.remote_url ++ " " ++ env.repo_path) env.clone_exit ""
        env.clone_err with
    | .error e => ([.mkdir_parents, .clone], .error e)
    | .ok _ => ([.mkdir_parents, .clone], .ok ())

/-- C8: when the local clone already exists and is valid — the path exists,
`.git` is a directory, the origin query succeeds and its stripped output
equals the configured remote URL — `ensure_local_clone` does not raise and
performs no network action and no filesystem change: its only action is the
local `git config` metadata read. -/
theorem ensure_local_clone_idempotent (env : CloneEnv)
    (hp : env.path_exists = true) (hg : env.git_dir_ok = true)
    (hc : env.config_exit = 0) (hu : pyStrip env.config_out = env.remote_url) :
    ensure_local_clone env = ([.config_get], .ok ()) ∧
    ((ensure_local_clone env).1.all
      (fun a => a.isNetwork = false ∧ a.changesFs = false)) = true := by
  have h1 : ensure_local_clone env = ([.config_get], .ok ()) := by
    unfold ensure_local_clone run_git
    rw [hp, hg, hc]
    simp [hu]
  exact ⟨h1, by rw [h1]; decide⟩

/-- C8 witness: a concrete valid existing clone. -/
theorem ensure_local_clone_idempotent_witness :
    ensure_local_clone ⟨true, true, 0, "url\n", "", 0, "", "/tmp/repo", "url"⟩ =
        ([.config_get], .ok ()) ∧
    ((ensure_local_clone
        ⟨true, true, 0, "url\n", "", 0, "", "/tmp/repo", "url"⟩).1.all
      (fun a => a.isNetwork = false ∧ a.changesFs = false)) = true :=
  ensure_local_clone_idempotent _ rfl rfl rfl (by decide)

/-- Whether the call raised `GitSyncError`. -/
def raisesGitSyncError (r : List CloneAction × Except String Unit) : Bool :=
  match r.2 with
  | .error _ => true
  | .ok _ => false

/-- C9: `ensure_local_clone` raises `GitSyncError` exactly when the path
exists without a `.git` directory, or the origin query exits non-zero, or
the stripped origin URL differs from the configured remote URL, or the
clone invocation exits non-zero; and in the non-zero-exit cases the message
carries the failed command and the stripped stderr text. -/
theorem ensure_local_clone_error_conditions (env : CloneEnv) :
    (raisesGitSyncError (ensure_local_clone env) = true ↔
      (env.path_exists = true ∧ env.git_dir_ok = false) ∨
      (env.path_exists = true ∧ env.git_dir_ok = true ∧ env.config_exit ≠ 0) ∨
      (env.path_exists = true ∧ env.git_dir_ok = true ∧ env.config_exit = 0 ∧
        pyStrip env.config_out ≠ env.remote_url) ∨
      (env.path_exists = false ∧ env.clone_exit ≠ 0)) ∧
    (env.path_exists = true → env.git_dir_ok = true → env.config_exit ≠ 0 →
      (ensure_local_clone env).2 =
        .error ("git config --get remote.origin.url failed (exit "
          ++ toString env.config_exit ++ "): " ++ pyStrip env.config_err)) ∧
    (env.path_exists = false → env.clone_exit ≠ 0 →
      (ensure_local_clone env).2 =
        .error ("git " ++ ("clone " ++ env.remote_url ++ " " ++ env.repo_path)
          ++ " failed (exit " ++ toString env.clone_exit ++ "): "
          ++ pyStrip env.clone_err)) := by
  obtain ⟨pe, gd, ce, co, cerr, cle, clerr, rp, ru⟩ := env
  cases pe <;> cases gd <;>
    unfold ensure_local_clone run_git raisesGitSyncError <;> dsimp only <;>
    split_ifs <;> simp_all <;> split_ifs <;> simp_all

/-- C9 witness: a concrete failing origin query (exit 1) yields the
wrapped command and stderr in the error message. -/
theorem ensure_local_clone_error_conditions_witness :
    (raisesGitSyncError
        (ensure_local_clone ⟨true, true, 1, "", " boom \n", 0, "", "/tmp/repo", "url"⟩) = true ↔
      ((true = true ∧ true = false) ∨
       (true = true ∧ true = true ∧ (1 : Nat) ≠ 0) ∨
       (true = true ∧ true = true ∧ (1 : Nat) = 0 ∧ pyStrip "" ≠ "url") ∨
       (true = false ∧ (0 : Nat) ≠ 0))) ∧
    (true = true → true = true → (1 : Nat) ≠ 0 →
      (ensure_local_clone ⟨true, true, 1, "", " boom \n", 0, "", "/tmp/repo", "url"⟩).2 =
        .error ("git config --get remote.origin.url failed (exit "
          ++ toString (1 : Nat) ++ "): " ++ pyStrip " boom \n")) ∧
    (true = false → (0 : Nat) ≠ 0 →
      (ensure_local_clone ⟨true, true, 1, "", " boom \n", 0, "", "/tmp/repo", "url"⟩).2 =
        .error ("git clone " ++ "url" ++ " " ++ "/tmp/repo"
          ++ " failed (exit " ++ toString (0 : Nat) ++ "): " ++ pyStrip "")) :=
  ensure_local_clone_error_conditions ⟨true, true, 1, "", " boom \n", 0, "", "/tmp/repo", "url"⟩

/-- Network operation kinds the spec forbids in the Commit Writer. -/
inductive NetOp where
  | fetch
  | push_remote
  deriving DecidableEq, Repr

/-- State the Commit Writer can observe or change: the local branch
history (commit messages, most recent first), the remote branch refs and
the remote-tracking refs (abstract tips), and whether the database file
differs from its last committed content. -/
structure CommitEnv where
  local_history : List String
  remote_refs : List Nat
  remote_tracking_refs : List Nat
  db_changed : Bool
  deriving DecidableEq, Repr

/-- Modelled from the spec: `GitSync.commit_db_update` is absent from
`src/terminotes/git_sync.py` (only the callers in `services/notes.py` and
the tests name it).  Spec 4.2: stage exactly the database file and commit
with the supplied message; identical content is a no-op, not an error; no
network operation is ever performed.  Returns the state after the call and
the list of network operations performed. -/
def commit_db_update (env : CommitEnv) (message : String) : CommitEnv × List NetOp :=
  if env.db_changed then
    ({ env with local_history := message :: env.local_history, db_changed := false }, [])
  else
    (env, [])

/-- C5: `commit_db_update` performs no network operation, leaves remote
refs and remote-tracking refs unchanged, and only the local branch gains a
commit (none when the content is unchanged). -/
theorem commit_db_update_local_only (env : CommitEnv) (msg : String) :
    (commit_db_update env msg).2 = [] ∧
    (commit_db_update env msg).1.remote_refs = env.remote_refs ∧
    (commit_db_update env msg).1.remote_tracking_refs = env.remote_tracking_refs ∧
    (env.db_changed = true →
      (commit_db_update env msg).1.local_history = msg :: env.local_history) ∧
    (env.db_changed = false → (commit_db_update env msg).1 = env) := by
  unfold commit_db_update
  split_ifs <;> simp_all

/-- C5 witness: a concrete changed database gains exactly one local
commit and triggers no network operation. -/
theorem commit_db_update_local_only_witness :
    (commit_db_update ⟨["old"], [5], [5], true⟩ "chore(db): create log 1").2 = [] ∧
    (commit_db_update ⟨["old"], [5], [5], true⟩ "chore(db): create log 1").1.remote_refs = [5] ∧
    (commit_db_update ⟨["old"], [5], [5], true⟩
        "chore(db): create log 1").1.remote_tracking_refs = [5] ∧
    (true = true →
      (commit_db_update ⟨["old"], [5], [5], true⟩
          "chore(db): create log 1").1.local_history = ["chore(db): create log 1", "old"]) ∧
    (true = false → (commit_db_update ⟨["old"], [5], [5], true⟩
        "chore(db): create log 1").1 = ⟨["old"], [5], [5], true⟩) :=
  commit_db_update_local_only ⟨["old"], [5], [5], true⟩ "chore(db): create log 1"

/-- State observed by a forced push with lease: the local branch tip, the
actual remote branch tip, and the remote tip as last fetched (the
remote-tracking ref, the lease reference point). -/
structure PushEnv where
  local_tip : Nat
  remote_tip : Nat
  last_fetched_tip : Nat
  deriving DecidableEq, Repr

/-- Modelled from the spec: `GitSync.force_push_with_lease` is absent from
`src/terminotes/git_sync.py` (only the caller `cli/sync.py` names it).
Spec 4.4 and glossary: `git push --force-with-lease` overwrites the remote
branch only if the remote has not changed since it was last observed (its
tip still equals the remote-tracking ref); otherwise the push is rejected
with an error and nothing changes. -/
def force_push_with_lease (env : PushEnv) : PushEnv × Except String Unit :=
  if env.remote_tip = env.last_fetched_tip then
    ({ env with remote_tip := env.local_tip }, .ok ())
  else
    (env, .error "git push --force-with-lease failed: stale info, remote moved since last fetch")

/-- C7: a `local_wins` forced push is atomic under the lease: either the
remote did not move since the last fetch and the push succeeds leaving the
remote tip equal to the local pre-resolution tip, or the remote moved and
the push fails with an error leaving every tip unchanged — it never
silently overwrites and never partially applies. -/
theorem force_push_with_lease_atomic (env : PushEnv) :
    (env.remote_tip = env.last_fetched_tip ∧
      (force_push_with_lease env).2 = .ok () ∧
      (force_push_with_lease env).1.remote_tip = env.local_tip ∧
      (force_push_with_lease env).1.local_tip = env.local_tip) ∨
    (env.remote_tip ≠ env.last_fetched_tip ∧
      (∃ e, (force_push_with_lease env).2 = .error e) ∧
      (force_push_with_lease env).1 = env) := by
  unfold force_push_with_lease
  split_ifs with h
  · exact Or.inl ⟨h, rfl, rfl, rfl⟩
  · exact Or.inr ⟨h, ⟨_, rfl⟩, rfl⟩

/-- Storage plus git-handle state for the note-mutation workflows: the ids
of the notes persisted in storage, the ids whose in-place update was
persisted by `storage.update_note`, the next id storage would assign, and
whether and with what message `commit_db_update` would raise
`GitSyncError`.  The commit method itself is absent from the tree, but
`_run_git`, which wraps every git invocation, raises `GitSyncError` on
failure, and every CLI note command imports and catches exactly that
type. -/
structure NotesCtx where
  notes : List Nat
  updated : List Nat
  next_id : Nat
  commit_fails : Bool
  commit_error_msg : String
  deriving DecidableEq, Repr

/-- Embedding of `create_log_entry` (src/terminotes/services/notes.py):
`ctx.storage.create_note` persists the note, then
`ctx.git_sync.commit_db_update` runs with message
"chore(db): create log {id}" and no exception handling around it, so a
raised `GitSyncError` propagates to the CLI caller while the storage
mutation stays in place.  Title derivation and tag handling are elided:
they do not affect the persisted-note/commit ordering.  Returns the state
after the call and either the created note id or the propagated error
message. -/
def create_log_entry (ctx : NotesCtx) (body : String) : NotesCtx × Except String Nat :=
  let note_id := ctx.next_id
  let ctx1 : NotesCtx :=
    { ctx with notes := ctx.notes ++ [note_id], next_id := ctx.next_id + 1 }
  let _ := body
  if ctx.commit_fails then (ctx1, .error ctx.commit_error_msg)
  else (ctx1, .ok note_id)

/-- Embedding of `create_link_entry` (src/terminotes/services/notes.py): a
URL that is empty after stripping raises `ValueError` before any storage
mutation; otherwise `storage.create_note` persists the link note and
`commit_db_update` runs with message "chore(db): create link {id}" and no
exception handling around it.  The Wayback snapshot lookup, body assembly
and title derivation are elided: they only shape the note content and do
not affect the persisted-note/commit ordering. -/
def create_link_entry (ctx : NotesCtx) (url : String) : NotesCtx × Except String Nat :=
  if pyStrip url = "" then
    (ctx, .error "A URL is required to create a link note.")
  else
    let note_id := ctx.next_id
    let ctx1 : NotesCtx :=
      { ctx with notes := ctx.notes ++ [note_id], next_id := ctx.next_id + 1 }
    if ctx.commit_fails then (ctx1, .error ctx.commit_error_msg)
    else (ctx1, .ok note_id)

/-- Embedding of `create_via_editor` (src/terminotes/services/notes.py):
the editor round-trip and front-matter parsing (pure data shaping, out of
the spec's core) are elided; `storage.create_note` persists the note and
`commit_db_update` runs with message "chore(db): create note {id}" and no
exception handling around it. -/
def create_via_editor (ctx : NotesCtx) : NotesCtx × Except String Nat :=
  let note_id := ctx.next_id
  let ctx1 : NotesCtx :=
    { ctx with notes := ctx.notes ++ [note_id], next_id := ctx.next_id + 1 }
  if ctx.commit_fails then (ctx1, .error ctx.commit_error_msg)
  else (ctx1, .ok note_id)

/-- Embedding of `update_via_editor` (src/terminotes/services/notes.py)
for an explicit note id: `storage.fetch_note` raises `StorageError`
("Note \x27{id}\x27 not found.", src/terminotes/storage.py) when the id is
absent, before any mutation; otherwise the editor round-trip is elided,
`storage.update_note` persists the update, and `commit_db_update` runs
with message "chore(db): update note {id}" and no exception handling
around it.  The note_id = -1 last-updated-note shortcut is elided. -/
def update_via_editor (ctx : NotesCtx) (note_id : Nat) : NotesCtx × Except String Nat :=
  if note_id ∈ ctx.notes then
    let ctx1 : NotesCtx := { ctx with updated := ctx.updated ++ [note_id] }
    if ctx.commit_fails then (ctx1, .error ctx.commit_error_msg)
    else (ctx1, .ok note_id)
  else
    (ctx, .error ("Note \x27" ++ toString note_id ++ "\x27 not found."))

/-- Embedding of the `log` command (src/terminotes/cli/log.py): the content
words are joined with spaces and stripped; empty content is a CLI error;
otherwise `create_log_entry` runs and a `StorageError` or `GitSyncError`
escaping it is caught and re-raised as `TerminotesCliError` — the command
fails.  `\x27` is the single-quote character of the Python literal. -/
def log_command (ctx : NotesCtx) (content : List String) : NotesCtx × CmdOutcome :=
  let body := pyStrip (String.intercalate " " content)
  if body = "" then
    (ctx, .err "Content is required for \x27tn log\x27.")
  else
    match create_log_entry ctx body with
    | (ctx1, .error e) => (ctx1, .err e)
    | (ctx1, .ok note_id) =>
      (ctx1, .ok ("Created note " ++ toString note_id ++ " (tagged as log)"))

/-- Embedding of the `link` command (src/terminotes/cli/link.py):
`create_link_entry` runs and `ValueError`, `StorageError` and
`GitSyncError` escaping it are each caught and re-raised as
`TerminotesCliError` — the command fails.  The with-snapshot variant of
the success echo is elided along with the snapshot itself. -/
def link_command (ctx : NotesCtx) (url : String) : NotesCtx × CmdOutcome :=
  match create_link_entry ctx url with
  | (ctx1, .error e) => (ctx1, .err e)
  | (ctx1, .ok note_id) =>
    (ctx1, .ok ("Saved link note " ++ toString note_id))

/-- Embedding of the `edit` command (src/terminotes/cli/edit.py): with an
id it updates that note via `update_via_editor`, without one it creates a
note via `create_via_editor`; in both branches `EditorError`,
`StorageError` and `GitSyncError` are caught and re-raised as
`TerminotesCliError` — the command fails.  The `--last` flag and the
mutual-exclusion check are elided. -/
def edit_command (ctx : NotesCtx) (note_id : Option Nat) : NotesCtx × CmdOutcome :=
  match note_id with
  | some nid =>
    match update_via_editor ctx nid with
    | (ctx1, .error e) => (ctx1, .err e)
    | (ctx1, .ok nid2) => (ctx1, .ok ("Updated note " ++ toString nid2))
  | none =>
    match create_via_editor ctx with
    | (ctx1, .error e) => (ctx1, .err e)
    | (ctx1, .ok nid2) => (ctx1, .ok ("Created note " ++ toString nid2))

/-- The four note mutations the claim enumerates, with the CLI inputs that
select them. -/
inductive NoteMutation where
  | mk_log (content : List String)
  | mk_link (url : String)
  | mk_editor_note
  | mk_editor_update (note_id : Nat)
  deriving DecidableEq, Repr

/-- Dispatch of a note mutation to its triggering CLI command. -/
def note_mutation_command (ctx : NotesCtx) : NoteMutation → NotesCtx × CmdOutcome
  | .mk_log content => log_command ctx content
  | .mk_link url => link_command ctx url
  | .mk_editor_note => edit_command ctx none
  | .mk_editor_update nid => edit_command ctx (some nid)

/-- The precondition under which the mutation's storage step succeeds, so
the flow reaches the local commit: non-empty stripped content for the log
command, non-empty stripped URL for the link command, nothing for an
editor creation, an existing note id for an editor update. -/
def NoteMutation.reachesStorage (ctx : NotesCtx) : NoteMutation → Prop
  | .mk_log content => pyStrip (String.intercalate " " content) ≠ ""
  | .mk_link url => pyStrip url ≠ ""
  | .mk_editor_note => True
  | .mk_editor_update nid => nid ∈ ctx.notes

/-- What "the storage mutation succeeded and stays in place" means after
the mutation: the three creations persist a note with the next storage id;
the update leaves the note set unchanged and persists the update of the
targeted id. -/
def NoteMutation.persistedMutation (ctx after : NotesCtx) : NoteMutation → Prop
  | .mk_log _ => after.notes = ctx.notes ++ [ctx.next_id]
  | .mk_link _ => after.notes = ctx.notes ++ [ctx.next_id]
  | .mk_editor_note => after.notes = ctx.notes ++ [ctx.next_id]
  | .mk_editor_update nid =>
      after.notes = ctx.notes ∧ after.updated = ctx.updated ++ [nid]

/-- C2 counterexample: it is not the case that a note mutation whose local
commit fails still lets the triggering command succeed — refuted for the
log command at a concrete input where the commit raises. -/
theorem log_command_commit_failure_counterexample :
    ¬ (∀ (ctx : NotesCtx) (content : List String), ctx.commit_fails = true →
        ∃ m, (log_command ctx content).2 = CmdOutcome.ok m) := by
  intro h
  obtain ⟨m, hm⟩ := h ⟨[], [], 1, true, "commit failed"⟩ ["hello"] rfl
  rw [show (log_command ⟨[], [], 1, true, "commit failed"⟩ ["hello"]).2 =
      CmdOutcome.err "commit failed" by decide] at hm
  exact CmdOutcome.noConfusion hm

/-- C2 amended: for every note mutation — create log, create link, create
note via editor, update note via editor — when the local commit raises
`GitSyncError` after the storage mutation succeeded, the storage mutation
stays in place but the error propagates and the triggering command fails
with a CLI error carrying the commit error message; no warning path
exists. -/
theorem note_mutation_commit_failure_fails_command (ctx : NotesCtx) (m : NoteMutation)
    (hf : ctx.commit_fails = true) (hm : m.reachesStorage ctx) :
    (note_mutation_command ctx m).2 = CmdOutcome.err ctx.commit_error_msg ∧
    m.persistedMutation ctx (note_mutation_command ctx m).1 := by
  cases m <;>
    unfold note_mutation_command log_command link_command edit_command
      create_log_entry create_link_entry create_via_editor update_via_editor <;>
    dsimp only <;>
    simp_all [NoteMutation.reachesStorage, NoteMutation.persistedMutation]

/-- C2 witness: a concrete failing commit after a persisted in-place
update of note 5. -/
theorem note_mutation_commit_failure_fails_command_witness :
    (note_mutation_command ⟨[5], [], 6, true, "boom"⟩ (.mk_editor_update 5)).2 =
        CmdOutcome.err "boom" ∧
    NoteMutation.persistedMutation ⟨[5], [], 6, true, "boom"⟩
      (note_mutation_command ⟨[5], [], 6, true, "boom"⟩ (.mk_editor_update 5)).1
      (.mk_editor_update 5) :=
  note_mutation_commit_failure_fails_command ⟨[5], [], 6, true, "boom"⟩
    (.mk_editor_update 5) rfl (by simp [NoteMutation.reachesStorage])
